import Mathlib

/-!
Verification of the rule-based Classification Engine of the ai-workflow-agent
repository, as implemented by `AIEmailProcessor.process_email_with_rules` in
`src/main_enhanced.py`.  Python string primitives (`in`, `lower`, `split`,
`strip`, `title`, `count`, `re.split`) are embedded as executable functions
over `List Char`, and the engine itself is translated clause by clause.
The wall-clock value read by `datetime.now()` is made an explicit input
(`PyTime`), since the composed response text interpolates it.
-/

namespace AIWorkflow

/-- Python list/str prefix test over char lists. -/
def listIsPre : List Char → List Char → Bool
  | [], _ => true
  | _ :: _, [] => false
  | a :: as, b :: bs => a == b && listIsPre as bs

/-- Python substring containment `pat in hay` over char lists
(the empty pattern is contained in everything). -/
def listSub : List Char → List Char → Bool
  | pat, [] => pat.isEmpty
  | pat, c :: rest => listIsPre pat (c :: rest) || listSub pat rest

/-- Python `pat in hay` on strings (substring containment). -/
def containsSub (hay pat : String) : Bool :=
  listSub pat.toList hay.toList

/-- Python `str.lower()` (ASCII case folding, as used by the engine). -/
def lowerStr (s : String) : String :=
  String.mk (s.toList.map Char.toLower)

/-- Python `str.strip()`: drop leading and trailing whitespace. -/
def pyStrip (s : String) : String :=
  String.mk (((s.toList.dropWhile Char.isWhitespace).reverse.dropWhile Char.isWhitespace).reverse)

/-- Helper for Python `str.split()` with no argument: split on whitespace runs,
dropping empty pieces. -/
def pySplitAux : List Char → List Char → List String
  | [], acc => if acc.isEmpty then [] else [String.mk acc.reverse]
  | c :: rest, acc =>
    if c.isWhitespace then
      if acc.isEmpty then pySplitAux rest [] else String.mk acc.reverse :: pySplitAux rest []
    else pySplitAux rest (c :: acc)

/-- Python `str.split()` (whitespace split, empties removed). -/
def pySplit (s : String) : List String := pySplitAux s.toList []

/-- Python `str.isupper()`: at least one cased character, and no cased
character is lower-case (ASCII reading). -/
def pyIsUpper (w : String) : Bool :=
  w.toList.any (fun c => c.isAlpha) && w.toList.all (fun c => !c.isAlpha || c.isUpper)

/-- Helper for Python `str.title()`: a letter starts upper-case after a
non-letter, and lower-case after a letter. -/
def pyTitleAux : List Char → Bool → List Char
  | [], _ => []
  | c :: rest, prevAlpha =>
    (if c.isAlpha then (if prevAlpha then c.toLower else c.toUpper) else c)
      :: pyTitleAux rest c.isAlpha

/-- Python `str.title()` (ASCII reading). -/
def pyTitle (s : String) : String := String.mk (pyTitleAux s.toList false)

/-- Python `sender.split('@')[0]`: everything before the first `@`. -/
def takeUntilAt (s : String) : String :=
  String.mk (s.toList.takeWhile (fun c => c != '@'))

/-- Python `str.replace('.', ' ')`. -/
def replaceDotSpace (s : String) : String :=
  String.mk (s.toList.map (fun c => if c == '.' then ' ' else c))

/-- Delimiter class of the sentence splitter `re.split(r'[.!?]+', content)`. -/
def isSentenceDelim (c : Char) : Bool := c == '.' || c == '!' || c == '?'

/-- Helper for `re.split(r'[.!?]+', content)`: a maximal run of delimiters is
one split point; the boolean records being inside a run. -/
def reSplitAux : List Char → List Char → Bool → List String
  | [], acc, _ => [String.mk acc.reverse]
  | c :: rest, acc, inRun =>
    if isSentenceDelim c then
      if inRun then reSplitAux rest acc true
      else String.mk acc.reverse :: reSplitAux rest [] true
    else reSplitAux rest (c :: acc) false

/-- Python `re.split(r'[.!?]+', content)`. -/
def reSplit (s : String) : List String := reSplitAux s.toList [] false

/-- Number of keywords of `kws` occurring in `txt`
(`sum(1 for kw in kws if kw in txt)`). -/
def countKw (kws : List String) (txt : String) : Nat :=
  (kws.filter (fun kw => containsSub txt kw)).length

/-- Stable insertion into a list sorted by descending first component;
an equal score goes after existing entries, as Python's stable sort does. -/
def insertDesc (p : Nat × String) : List (Nat × String) → List (Nat × String)
  | [] => [p]
  | q :: rest => if p.1 < q.1 then q :: insertDesc p rest else p :: q :: rest

/-- Stable descending sort by first component, modelling
`list.sort(key=lambda x: x[0], reverse=True)`. -/
def sortDesc : List (Nat × String) → List (Nat × String)
  | [] => []
  | p :: rest => insertDesc p (sortDesc rest)

/-- Input message, `TestEmailRequest` of `src/main_enhanced.py` once
validated: sender, subject and content are all strings. -/
structure EmailData where
  sender : String
  subject : String
  content : String
deriving DecidableEq, Repr

/-- Value read from the wall clock during one invocation:
`datetime.now().strftime('%Y%m%d-%H%M')` and `datetime.now().isoformat()`. -/
structure PyTime where
  strftimeYmdHM : String
  isoformat : String
deriving DecidableEq, Repr

/-- Result dictionary returned by `process_email_with_rules`. -/
structure Classification where
  intent : String
  priority : String
  key_points : List String
  suggested_response : String
  requires_human : Bool
  sentiment : String
  original_email : EmailData
  knowledge_used : List String
  processed_at : String
deriving DecidableEq, Repr

/-- Crisis keyword list of `process_email_with_rules`. -/
def crisis_keywords : List String :=
  ["unacceptable", "lawsuit", "legal action", "sue", "breach of contract",
   "system down", "system failure", "lost revenue", "losing money",
   "disaster", "incompetence", "terminate contract", "failed", "broken"]

/-- Complaint keyword list. -/
def complaint_keywords : List String :=
  ["complaint", "unhappy", "disappointed", "frustrated", "angry",
   "terrible", "awful", "worst", "disgusted", "unacceptable"]

/-- Sales keyword list. -/
def sales_keywords : List String :=
  ["evaluation", "evaluating", "requirement", "deployment", "enterprise",
   "budget", "proposal", "rfp", "vendor", "implementation", "pilot",
   "trial", "demo", "users", "employees", "global", "scale"]

/-- Support keyword list. -/
def support_keywords : List String :=
  ["error", "bug", "issue", "problem", "not working", "broken",
   "help", "support", "technical", "troubleshoot", "fix", "resolve",
   "integration", "stopped working", "failing", "timeout", "can\x27t",
   "unable", "failure", "not functioning"]

/-- Pricing keyword list. -/
def pricing_keywords : List String :=
  ["pricing", "cost", "price", "plan", "quote", "discount",
   "billing", "payment", "subscription", "fee", "charge"]

/-- Urgency-override indicator list. -/
def urgent_indicators : List String :=
  ["urgent", "asap", "immediately", "critical", "emergency",
   "right now", "immediate", "time sensitive", "!!!"]

/-- High-value override indicator list. -/
def high_value_indicators : List String :=
  ["$", "million", "thousand", "budget", "enterprise",
   "10,000", "50,000", "100,000", "1m+", "global deployment"]

/-- Negative sentiment indicator list. -/
def negative_indicators : List String :=
  ["unacceptable", "terrible", "awful", "horrible", "worst",
   "angry", "furious", "frustrated", "disappointed", "upset",
   "disaster", "failure", "incompetent", "pathetic"]

/-- Positive sentiment indicator list. -/
def positive_indicators : List String :=
  ["thank", "thanks", "appreciate", "great", "excellent",
   "wonderful", "fantastic", "amazing", "pleased", "happy",
   "excited", "looking forward", "interested"]

/-- Importance keyword list of `extract_key_points_smart`. -/
def important_keywords : List String :=
  ["demand", "require", "must", "need", "want", "expect",
   "budget", "deadline", "urgent", "million", "thousand",
   "employees", "users", "issue", "problem", "error"]

/-- Lower-cased content (`content_lower`). -/
def contentLower (e : EmailData) : String := lowerStr (e.content)

/-- Lower-cased subject (`subject_lower`). -/
def subjectLower (e : EmailData) : String := lowerStr (e.subject)

/-- Number of crisis keywords in the lower-cased content (`crisis_count`). -/
def crisisCount (e : EmailData) : Nat := countKw crisis_keywords (contentLower e)

/-- Number of complaint keywords in the content (`complaint_count`). -/
def complaintCount (e : EmailData) : Nat := countKw complaint_keywords (contentLower e)

/-- Number of sales keywords in the content (`sales_count`). -/
def salesCount (e : EmailData) : Nat := countKw sales_keywords (contentLower e)

/-- Number of support keywords in the content (`support_count`). -/
def supportCount (e : EmailData) : Nat := countKw support_keywords (contentLower e)

/-- Number of pricing keywords in the content (`pricing_count`). -/
def pricingCount (e : EmailData) : Nat := countKw pricing_keywords (contentLower e)

/-- Intent/priority cascade of `process_email_with_rules` (the chain of
`if`/`elif` branches setting `intent` and `priority`). -/
def baseIntentPriority (e : EmailData) : String × String :=
  if 2 ≤ crisisCount e ∨ (containsSub (subjectLower e) ("urgent") = true ∧ 1 ≤ complaintCount e) then
    ("complaint", "urgent")
  else if 2 ≤ complaintCount e then
    ("complaint", "high")
  else if (2 ≤ salesCount e ∧ (["deployment", "enterprise", "evaluation", "requirements"].any
            (fun i => containsSub (contentLower e) i)) = true)
        ∨ (1 ≤ pricingCount e ∧ (["enterprise", "custom", "deployment"].any
            (fun i => containsSub (contentLower e) i)) = true)
        ∨ (3 ≤ salesCount e ∧ (["budget", "000", "million", "employees"].any
            (fun i => containsSub (contentLower e) i)) = true) then
    ("sales_opportunity", "high")
  else if 1 ≤ supportCount e ∧ (containsSub (subjectLower e) ("urgent") = true
        ∨ containsSub (subjectLower e) ("broken") = true) then
    ("support_request", "urgent")
  else if 2 ≤ supportCount e then
    ("support_request",
      if ¬ ((["urgent", "asap", "critical"].any (fun w => containsSub (contentLower e) w)) = true)
      then "normal" else "high")
  else if 1 ≤ pricingCount e then
    ("pricing_inquiry", "normal")
  else
    ("general_inquiry", "normal")

/-- Intent selected by the cascade. -/
def intentOf (e : EmailData) : String := (baseIntentPriority e).1

/-- Base priority selected by the cascade, before the override checks. -/
def basePriority (e : EmailData) : String := (baseIntentPriority e).2

/-- Whether any urgency-override indicator occurs in the content. -/
def urgencyHit (e : EmailData) : Bool :=
  urgent_indicators.any (fun i => containsSub (contentLower e) i)

/-- Whether any high-value override indicator occurs in the content. -/
def highValueHit (e : EmailData) : Bool :=
  high_value_indicators.any (fun i => containsSub (contentLower e) i)

/-- Priority after the urgency override
(`priority = 'urgent' if priority != 'urgent' else priority`). -/
def priorityAfterUrgency (e : EmailData) : String :=
  if urgencyHit e then
    (if basePriority e ≠ "urgent" then "urgent" else basePriority e)
  else basePriority e

/-- Final priority, after the high-value override
(`priority = 'high' if priority == 'normal' else priority`). -/
def finalPriority (e : EmailData) : String :=
  if highValueHit e then
    (if priorityAfterUrgency e = "normal" then "high" else priorityAfterUrgency e)
  else priorityAfterUrgency e

/-- Negative sentiment score (`negative_score`). -/
def negativeScore (e : EmailData) : Nat := countKw negative_indicators (contentLower e)

/-- Positive sentiment score (`positive_score`). -/
def positiveScore (e : EmailData) : Nat := countKw positive_indicators (contentLower e)

/-- Number of all-caps words longer than 3 characters (`caps_words`). -/
def capsWords (e : EmailData) : Nat :=
  ((pySplit (e.content)).filter (fun w => pyIsUpper w && decide (3 < w.length))).length

/-- Number of exclamation marks in the content (`exclamation_count`). -/
def exclamationCount (e : EmailData) : Nat :=
  ((e.content).toList.filter (fun c => c == '!')).length

/-- Sentiment decision of `process_email_with_rules`. -/
def sentimentOf (e : EmailData) : String :=
  if positiveScore e < negativeScore e ∨ 5 < capsWords e ∨ 10 < exclamationCount e then
    "negative"
  else if negativeScore e < positiveScore e then
    "positive"
  else
    "neutral"

/-- Importance score of one (stripped) sentence in `extract_key_points_smart`. -/
def sentenceScore (s : String) : Nat := countKw important_keywords (lowerStr s)

/-- Scored important sentences of `extract_key_points_smart`: stripped
sentences longer than 10 characters that carry an importance keyword or a
`?`/`!` character. -/
def importantSentences (content : String) : List (Nat × String) :=
  (reSplit content).filterMap (fun sentence =>
    if 10 < (pyStrip sentence).length then
      (if 0 < sentenceScore (pyStrip sentence)
          ∨ containsSub (pyStrip sentence) ("?") = true
          ∨ containsSub (pyStrip sentence) ("!") = true then
        some (sentenceScore (pyStrip sentence), pyStrip sentence)
      else none)
    else none)

/-- Fallback of `extract_key_points_smart`: the stripped first three
sentences longer than 10 characters. -/
def fallbackPoints (content : String) : List String :=
  (((reSplit content).take 3).map pyStrip).filter (fun s => 10 < s.length)

/-- Top-five important sentences, sorted by descending score (stable). -/
def topKeyPoints (content : String) : List String :=
  ((sortDesc (importantSentences content)).take 5).map Prod.snd

/-- Translation of `extract_key_points_smart`. -/
def extractKeyPointsSmart (content : String) : List String :=
  if topKeyPoints content = [] then fallbackPoints content else topKeyPoints content

/-- Display name used by `get_smart_response`:
`sender.split('@')[0].replace('.', ' ').title()`. -/
def senderDisplayName (e : EmailData) : String :=
  pyTitle (replaceDotSpace (takeUntilAt (e.sender)))

/-- Display name used by `get_template_response`:
`sender.split('@')[0].title()`. -/
def templateSenderName (e : EmailData) : String :=
  pyTitle (takeUntilAt (e.sender))

/-- Emergency-escalation response of `get_smart_response` for
`complaint`/`urgent`; `ticket` is the interpolated `strftime` value. -/
def complaintUrgentResponse (sender_name ticket : String) : String :=
  "Dear " ++ sender_name ++ ",\n\nI sincerely apologize for the critical situation you\x27re experiencing. This is absolutely not the level of service we strive to provide.\n\nI\x27ve immediately escalated your case to our executive team and technical emergency response unit. You can expect:\n\n1. A call from our VP of Customer Success within 30 minutes\n2. Our senior engineering team is investigating the issue with highest priority\n3. A detailed incident report and resolution plan within 2 hours\n4. Full review of your account and compensation discussion\n\nYour direct escalation contact:\n- Emergency Hotline: 1-800-URGENT-1 (ext. 911)\n- Executive Email: executive.escalation@aiworkflow.com\n- Ticket #: CRITICAL-" ++ ticket ++ "\n\nWe understand the severity of this situation and are mobilizing all resources to resolve it immediately.\n\nSincerely,\nAI Workflow Emergency Response Team"

/-- Enterprise response of `get_smart_response` for
`sales_opportunity`/`high`. -/
def salesHighResponse (sender_name : String) : String :=
  "Dear " ++ sender_name ++ ",\n\nThank you for considering AI Workflow for your enterprise deployment. Based on your requirements, you\x27re exactly the type of organization we love to partner with.\n\nI\x27ve shared your detailed requirements with our Enterprise Solutions team. Given the scale and complexity of your needs, I\x27d like to arrange:\n\n1. Technical Architecture Review - Our solutions architects will design a custom deployment plan\n2. Security & Compliance Documentation - All certifications and audit reports\n3. Executive Briefing - With our CTO to discuss your specific technical requirements\n4. Proof of Concept - We can set up a pilot program for your team\n\nFor immediate assistance:\n- Enterprise Sales Direct: +1-555-ENTERPRISE\n- Schedule a call: https://calendly.com/aiworkflow-enterprise/technical-review\n\nWe typically respond to RFPs within 48 hours. Given your timeline, we\x27ll prioritize your proposal.\n\nLooking forward to partnering with you!\n\nBest regards,\nEnterprise Solutions Team\nAI Workflow"

/-- Template `pricing_response` of `get_template_response`, with the sender
slot substituted. -/
def pricingTemplate (sender : String) : String :=
  "Dear " ++ sender ++ ",\n\nThank you for your interest in our pricing plans. We offer three tiers:\n- Starter: $49/month - Perfect for small teams\n- Professional: $149/month - Ideal for growing businesses  \n- Enterprise: Custom pricing - For large organizations\n\nWe also offer a 10% discount for annual billing and a 14-day free trial.\n\nWould you like to schedule a call to discuss which plan best fits your needs?\n\nBest regards,\nAI Workflow Team"

/-- Template `support_response` of `get_template_response`. -/
def supportTemplate (sender : String) : String :=
  "Dear " ++ sender ++ ",\n\nThank you for reaching out to our support team. We understand you\x27re experiencing an issue and we\x27re here to help.\n\nYour request has been logged and our support team will respond within 24 hours. For urgent matters, you can also:\n- Check our documentation at docs.aiworkflow.com\n- Join our community forum\n- Call our support line at 1-800-AI-HELP (Premium plans)\n\nWe appreciate your patience.\n\nBest regards,\nAI Workflow Support Team"

/-- Template `complaint_response` of `get_template_response`. -/
def complaintTemplate (sender : String) : String :=
  "Dear " ++ sender ++ ",\n\nWe sincerely apologize for any inconvenience you\x27ve experienced. Your satisfaction is our top priority, and we take your feedback very seriously.\n\nYour concern has been escalated to our senior support team who will contact you within 4 hours to resolve this issue.\n\nIn the meantime, please don\x27t hesitate to call our priority support line at 1-800-AI-HELP.\n\nWe value your business and are committed to making this right.\n\nBest regards,\nAI Workflow Customer Success Team"

/-- Template `general_response` of `get_template_response`, with sender and
subject slots substituted. -/
def generalTemplate (sender subject : String) : String :=
  "Dear " ++ sender ++ ",\n\nThank you for contacting AI Workflow. We\x27ve received your message regarding \"" ++ subject ++ "\" and appreciate you reaching out.\n\nOur team will review your inquiry and respond within 24-48 hours with the information you need.\n\nIf you have any urgent matters, please don\x27t hesitate to call us at 1-800-AI-HELP.\n\nBest regards,\nAI Workflow Team"

/-- Translation of `get_template_response`: dictionary lookup with
`general_response` as the default for unknown template names. -/
def getTemplateResponse (template_name : String) (e : EmailData) : String :=
  if template_name = "pricing_response" then pricingTemplate (templateSenderName e)
  else if template_name = "support_response" then supportTemplate (templateSenderName e)
  else if template_name = "complaint_response" then complaintTemplate (templateSenderName e)
  else generalTemplate (templateSenderName e) (e.subject)

/-- Translation of `get_smart_response` (`sentiment` is accepted but unused,
as in the source). -/
def getSmartResponse (intent : String) (e : EmailData) (priority : String)
    (sentiment : String) (t : PyTime) : String :=
  if intent = "complaint" ∧ priority = "urgent" then
    complaintUrgentResponse (senderDisplayName e) (t.strftimeYmdHM)
  else if intent = "sales_opportunity" ∧ priority = "high" then
    salesHighResponse (senderDisplayName e)
  else
    getTemplateResponse (intent ++ "_response") e

/-- Human-review decision of `process_email_with_rules` (evaluated on the
final priority and intent). -/
def requiresHumanOf (e : EmailData) : Bool :=
  decide (finalPriority e = "high" ∨ finalPriority e = "urgent"
    ∨ intentOf e = "complaint"
    ∨ containsSub (contentLower e) ("legal") = true
    ∨ containsSub (contentLower e) ("lawsuit") = true
    ∨ 5 ≤ salesCount e
    ∨ (containsSub (e.content) ("$") = true
        ∧ ((["000", "million", "M"].any (fun a => containsSub (e.content) a)) = true)))

/-- Translation of `AIEmailProcessor.process_email_with_rules`. -/
def processEmailWithRules (e : EmailData) (t : PyTime) : Classification :=
  { intent := intentOf e
    priority := finalPriority e
    key_points := extractKeyPointsSmart (e.content)
    suggested_response := getSmartResponse (intentOf e) e (finalPriority e) (sentimentOf e) t
    requires_human := requiresHumanOf e
    sentiment := sentimentOf e
    original_email := e
    knowledge_used := []
    processed_at := t.isoformat }

/-- Numeric rank of the priority order `normal < high < urgent`. -/
def prioRank (p : String) : Nat :=
  if p = "urgent" then 2 else if p = "high" then 1 else 0

/-- A fixed concrete clock value used by the concrete evaluations. -/
def t0 : PyTime := ⟨"20250101-0000", "2025-01-01T00:00:00"⟩

lemma prioRank_le_two (p : String) : prioRank p ≤ 2 := by
  unfold prioRank
  split_ifs <;> omega

lemma priorityAfterUrgency_of_hit (e : EmailData) (h : urgencyHit e = true) :
    priorityAfterUrgency e = "urgent" := by
  unfold priorityAfterUrgency
  rw [if_pos h]
  split_ifs with hb
  · rfl
  · push_neg at hb
    exact hb

lemma rank_base_le_after (e : EmailData) :
    prioRank (basePriority e) ≤ prioRank (priorityAfterUrgency e) := by
  unfold priorityAfterUrgency
  split_ifs with h1 h2
  · calc prioRank (basePriority e) ≤ 2 := prioRank_le_two _
      _ = prioRank ("urgent") := by rfl
  · exact Nat.le_refl _
  · exact Nat.le_refl _

lemma rank_after_le_final (e : EmailData) :
    prioRank (priorityAfterUrgency e) ≤ prioRank (finalPriority e) := by
  unfold finalPriority
  split_ifs with h1 h2
  · rw [h2]
    decide
  · exact Nat.le_refl _
  · exact Nat.le_refl _

lemma basePriority_cases (e : EmailData) :
    basePriority e = "normal" ∨ basePriority e = "high" ∨ basePriority e = "urgent" := by
  unfold basePriority baseIntentPriority
  split_ifs <;> simp

lemma intentOf_cases (e : EmailData) :
    intentOf e = "complaint" ∨ intentOf e = "sales_opportunity"
      ∨ intentOf e = "support_request" ∨ intentOf e = "pricing_inquiry"
      ∨ intentOf e = "general_inquiry" := by
  unfold intentOf baseIntentPriority
  split_ifs <;> simp

lemma priorityAfterUrgency_cases (e : EmailData) :
    priorityAfterUrgency e = "normal" ∨ priorityAfterUrgency e = "high"
      ∨ priorityAfterUrgency e = "urgent" := by
  unfold priorityAfterUrgency
  split_ifs with h1 h2
  · simp
  · exact basePriority_cases e
  · exact basePriority_cases e

lemma finalPriority_cases (e : EmailData) :
    finalPriority e = "normal" ∨ finalPriority e = "high" ∨ finalPriority e = "urgent" := by
  unfold finalPriority
  split_ifs with h1 h2
  · simp
  · exact priorityAfterUrgency_cases e
  · exact priorityAfterUrgency_cases e

/-- C2. Escalation implication: whenever the final priority is high or
urgent, or the final intent is complaint, the human-review flag is set. -/
theorem claim_C2 (e : EmailData) (t : PyTime)
    (h : (processEmailWithRules e t).priority = "high"
      ∨ (processEmailWithRules e t).priority = "urgent"
      ∨ (processEmailWithRules e t).intent = "complaint") :
    (processEmailWithRules e t).requires_human = true := by
  have h' : finalPriority e = "high" ∨ finalPriority e = "urgent" ∨ intentOf e = "complaint" := h
  show requiresHumanOf e = true
  unfold requiresHumanOf
  rcases h' with h' | h' | h' <;> simp [h']

def exC2 : EmailData := ⟨"boss@corp.com", "service", "unacceptable disaster"⟩

/-- Witness for C2: a crisis message with urgent priority is flagged. -/
theorem claim_C2_witness : (processEmailWithRules exC2 t0).requires_human = true :=
  claim_C2 exC2 t0 (Or.inr (Or.inl (by decide)))

/-- C4. Monotonic priority: the final priority never ranks below the base
priority chosen by the cascade. -/
theorem claim_C4 (e : EmailData) (t : PyTime) :
    prioRank (basePriority e) ≤ prioRank ((processEmailWithRules e t).priority) := by
  show prioRank (basePriority e) ≤ prioRank (finalPriority e)
  exact Nat.le_trans (rank_base_le_after e) (rank_after_le_final e)

def exC4 : EmailData := ⟨"a@b.com", "note", "the budget is big"⟩

/-- Witness for C4 at a concrete message raised from normal to high. -/
theorem claim_C4_witness :
    prioRank (basePriority exC4) ≤ prioRank ((processEmailWithRules exC4 t0).priority) :=
  claim_C4 exC4 t0

def exC5 : EmailData := ⟨"a@b.com", "note", "meet the deadline today"⟩

/-- Counterexample to C5: `deadline` and `today` are not urgency tokens of
the engine — the message keeps normal priority. -/
theorem claim_C5_counterexample :
    containsSub (contentLower exC5) ("deadline") = true
    ∧ containsSub (contentLower exC5) ("today") = true
    ∧ (processEmailWithRules exC5 t0).priority = "normal"
    ∧ ¬ (processEmailWithRules exC5 t0).priority = "urgent" := by decide

/-- C5 as amended: the urgency tokens are those of `urgent_indicators`
(`urgent`, `asap`, `immediately`, `critical`, `emergency`, `right now`,
`immediate`, `time sensitive`, `!!!`); any one of them in the content forces
the final priority to urgent. -/
theorem claim_C5_amended (e : EmailData) (t : PyTime) (h : urgencyHit e = true) :
    (processEmailWithRules e t).priority = "urgent" := by
  show finalPriority e = "urgent"
  unfold finalPriority
  rw [priorityAfterUrgency_of_hit e h]
  split_ifs <;> simp_all

def exC5w : EmailData := ⟨"a@b.com", "note", "need this urgent"⟩

/-- Witness for C5: a message containing `urgent` ends with urgent priority. -/
theorem claim_C5_witness : (processEmailWithRules exC5w t0).priority = "urgent" :=
  claim_C5_amended exC5w t0 (by decide)

def scenario4 : EmailData :=
  ⟨"info@smallbiz.com", "Pricing information",
   "Hi, what are your pricing plans? We\x27re a team of 10 people."⟩

/-- C9. Literal scenario 4 of the spec: the small-business pricing message
classifies as a normal-priority, neutral pricing inquiry with no escalation. -/
theorem claim_C9 :
    (processEmailWithRules scenario4 t0).intent = "pricing_inquiry"
    ∧ (processEmailWithRules scenario4 t0).priority = "normal"
    ∧ (processEmailWithRules scenario4 t0).sentiment = "neutral"
    ∧ (processEmailWithRules scenario4 t0).requires_human = false := by decide

/-- C10. Closed-range invariant: the engine only ever outputs the priorities
normal, high and urgent — never `low` — and one of the five intents. -/
theorem claim_C10 (e : EmailData) (t : PyTime) :
    ((processEmailWithRules e t).priority = "normal"
      ∨ (processEmailWithRules e t).priority = "high"
      ∨ (processEmailWithRules e t).priority = "urgent")
    ∧ ¬ (processEmailWithRules e t).priority = "low"
    ∧ ((processEmailWithRules e t).intent = "complaint"
      ∨ (processEmailWithRules e t).intent = "sales_opportunity"
      ∨ (processEmailWithRules e t).intent = "support_request"
      ∨ (processEmailWithRules e t).intent = "pricing_inquiry"
      ∨ (processEmailWithRules e t).intent = "general_inquiry") := by
  refine ⟨finalPriority_cases e, ?_, intentOf_cases e⟩
  have h := finalPriority_cases e
  show ¬ finalPriority e = "low"
  rcases h with h | h | h <;> rw [h] <;> decide

def exC10 : EmailData := ⟨"x@y.z", "hello", "just saying hello"⟩

/-- Witness for C10 at a concrete message. -/
theorem claim_C10_witness :
    ((processEmailWithRules exC10 t0).priority = "normal"
      ∨ (processEmailWithRules exC10 t0).priority = "high"
      ∨ (processEmailWithRules exC10 t0).priority = "urgent")
    ∧ ¬ (processEmailWithRules exC10 t0).priority = "low"
    ∧ ((processEmailWithRules exC10 t0).intent = "complaint"
      ∨ (processEmailWithRules exC10 t0).intent = "sales_opportunity"
      ∨ (processEmailWithRules exC10 t0).intent = "support_request"
      ∨ (processEmailWithRules exC10 t0).intent = "pricing_inquiry"
      ∨ (processEmailWithRules exC10 t0).intent = "general_inquiry") :=
  claim_C10 exC10 t0

def exC1 : EmailData := ⟨"a@b.com", "feedback", "terrible awful horrible thanks"⟩

/-- Counterexample to C1: a message with positive and negative keywords both
present whose sentiment is negative, not neutral — mixed signals are not
dampened, the larger score wins. -/
theorem claim_C1_counterexample :
    1 ≤ positiveScore exC1
    ∧ 1 ≤ negativeScore exC1
    ∧ (processEmailWithRules exC1 t0).sentiment = "negative"
    ∧ ¬ (processEmailWithRules exC1 t0).sentiment = "neutral" := by decide

/-- C1 as amended: with both keyword kinds present there is no dampening;
the sentiment is negative exactly when the negative score exceeds the
positive one or the all-caps heuristic (more than 5 such words) or the
exclamation heuristic (more than 10 marks) fires; positive exactly when the
positive score strictly exceeds the negative one and neither heuristic
fires; and neutral exactly when the two scores tie and neither heuristic
fires. -/
theorem claim_C1_amended (e : EmailData) (t : PyTime)
    (hp : 1 ≤ positiveScore e) (hn : 1 ≤ negativeScore e) :
    ((processEmailWithRules e t).sentiment = "negative" ↔
      (positiveScore e < negativeScore e ∨ 5 < capsWords e ∨ 10 < exclamationCount e))
    ∧ ((processEmailWithRules e t).sentiment = "positive" ↔
      (negativeScore e < positiveScore e ∧ capsWords e ≤ 5 ∧ exclamationCount e ≤ 10))
    ∧ ((processEmailWithRules e t).sentiment = "neutral" ↔
      (negativeScore e = positiveScore e ∧ capsWords e ≤ 5 ∧ exclamationCount e ≤ 10)) := by
  show (sentimentOf e = "negative" ↔ _) ∧ (sentimentOf e = "positive" ↔ _)
    ∧ (sentimentOf e = "neutral" ↔ _)
  unfold sentimentOf
  split_ifs with h1 h2
  · refine ⟨⟨fun _ => h1, fun _ => rfl⟩, ⟨fun hc => absurd hc (by decide), ?_⟩,
      ⟨fun hc => absurd hc (by decide), ?_⟩⟩
    · rintro ⟨he, hc, hx⟩
      exfalso
      rcases h1 with h | h | h <;> omega
    · rintro ⟨he, hc, hx⟩
      exfalso
      rcases h1 with h | h | h <;> omega
  · push_neg at h1
    obtain ⟨h1a, h1b, h1c⟩ := h1
    refine ⟨⟨fun hc => absurd hc (by decide), ?_⟩, ⟨fun _ => ⟨h2, h1b, h1c⟩, fun _ => rfl⟩,
      ⟨fun hc => absurd hc (by decide), ?_⟩⟩
    · rintro (h | h | h) <;> exfalso <;> omega
    · rintro ⟨he, _, _⟩
      exfalso
      omega
  · push_neg at h1
    obtain ⟨h1a, h1b, h1c⟩ := h1
    refine ⟨⟨fun hc => absurd hc (by decide), ?_⟩, ⟨fun hc => absurd hc (by decide), ?_⟩,
      ⟨fun _ => ⟨by omega, h1b, h1c⟩, fun _ => rfl⟩⟩
    · rintro (h | h | h) <;> exfalso <;> omega
    · rintro ⟨h, _, _⟩
      exact absurd h h2

def exC1w : EmailData := ⟨"a@b.com", "feedback", "terrible awful thanks"⟩

/-- Witness for C1: tied scores with both kinds present give neutral. -/
theorem claim_C1_witness : (processEmailWithRules exC1w t0).sentiment = "neutral" :=
  (claim_C1_amended exC1w t0 (by decide) (by decide)).2.2.mpr (by decide)

def exC3 : EmailData := ⟨"a@b.com", "hello", "proposal rfp vendor pilot demo"⟩

/-- Counterexample to C3: a message matching five sales keywords is flagged
for human review although its priority is normal, its intent is not
complaint, no legal token occurs and no monetary amount is mentioned. -/
theorem claim_C3_counterexample :
    (processEmailWithRules exC3 t0).requires_human = true
    ∧ (processEmailWithRules exC3 t0).priority = "normal"
    ∧ (processEmailWithRules exC3 t0).intent = "general_inquiry"
    ∧ containsSub (contentLower exC3) ("legal") = false
    ∧ containsSub (contentLower exC3) ("lawsuit") = false
    ∧ containsSub (exC3.content) ("$") = false := by decide

/-- C3 as amended: the human flag is set iff final priority is high or
urgent, or intent is complaint, or a legal-threat token occurs, or at least
five sales keywords match, or the raw content contains `$` together with
`000`, `million` or a capital `M`. -/
theorem claim_C3_amended (e : EmailData) (t : PyTime) :
    (processEmailWithRules e t).requires_human = true ↔
      ((processEmailWithRules e t).priority = "high"
        ∨ (processEmailWithRules e t).priority = "urgent"
        ∨ (processEmailWithRules e t).intent = "complaint"
        ∨ containsSub (contentLower e) ("legal") = true
        ∨ containsSub (contentLower e) ("lawsuit") = true
        ∨ 5 ≤ salesCount e
        ∨ (containsSub (e.content) ("$") = true
            ∧ (containsSub (e.content) ("000") = true
              ∨ containsSub (e.content) ("million") = true
              ∨ containsSub (e.content) ("M") = true))) := by
  show requiresHumanOf e = true ↔
    (finalPriority e = "high" ∨ finalPriority e = "urgent" ∨ intentOf e = "complaint" ∨ _)
  unfold requiresHumanOf
  simp [List.any_cons, List.any_nil, or_assoc, and_or_left]

def exC3w : EmailData := ⟨"a@b.com", "question", "pricing for enterprise"⟩

/-- Witness for C3: a high-priority sales message is flagged via the iff. -/
theorem claim_C3_witness : (processEmailWithRules exC3w t0).requires_human = true :=
  (claim_C3_amended exC3w t0).mpr (Or.inl (by decide))

def exC6 : EmailData := ⟨"boss@corp.com", "service level", "unacceptable disaster"⟩

def tA : PyTime := ⟨"20240101-1200", "2024-01-01T12:00:00"⟩

def tB : PyTime := ⟨"20240102-1300", "2024-01-02T13:00:00"⟩

set_option maxRecDepth 8192 in
/-- Counterexample to C6: the same complaint message classified at two
different clock readings produces different `suggested_response` texts
(the emergency template interpolates the timestamped ticket id). -/
theorem claim_C6_counterexample :
    ¬ tA = tB
    ∧ (processEmailWithRules exC6 tA).intent = "complaint"
    ∧ (processEmailWithRules exC6 tA).priority = "urgent"
    ∧ ¬ (processEmailWithRules exC6 tA).suggested_response
        = (processEmailWithRules exC6 tB).suggested_response := by decide

/-- C6 as amended: intent, priority, sentiment, human flag and key points
are clock-independent, and the suggested response is also identical across
clock readings except when intent is complaint and priority is urgent (the
one template that interpolates a timestamp). -/
theorem claim_C6_amended (e : EmailData) (t1 t2 : PyTime) :
    ((processEmailWithRules e t1).intent = (processEmailWithRules e t2).intent
      ∧ (processEmailWithRules e t1).priority = (processEmailWithRules e t2).priority
      ∧ (processEmailWithRules e t1).sentiment = (processEmailWithRules e t2).sentiment
      ∧ (processEmailWithRules e t1).requires_human = (processEmailWithRules e t2).requires_human
      ∧ (processEmailWithRules e t1).key_points = (processEmailWithRules e t2).key_points)
    ∧ (¬ ((processEmailWithRules e t1).intent = "complaint"
          ∧ (processEmailWithRules e t1).priority = "urgent")
        → (processEmailWithRules e t1).suggested_response
          = (processEmailWithRules e t2).suggested_response) := by
  refine ⟨⟨rfl, rfl, rfl, rfl, rfl⟩, ?_⟩
  intro h
  have h' : ¬ (intentOf e = "complaint" ∧ finalPriority e = "urgent") := h
  show getSmartResponse (intentOf e) e (finalPriority e) (sentimentOf e) t1
    = getSmartResponse (intentOf e) e (finalPriority e) (sentimentOf e) t2
  unfold getSmartResponse
  simp only [if_neg h']

def exC6w : EmailData := ⟨"dev@startup.com", "question", "what is the cost"⟩

/-- Witness for C6: a non-complaint message gets the identical response at
two different clock readings. -/
theorem claim_C6_witness :
    (processEmailWithRules exC6w tA).suggested_response
      = (processEmailWithRules exC6w tB).suggested_response :=
  (claim_C6_amended exC6w tA tB).2 (by decide)

lemma length_insertDesc (p : Nat × String) (l : List (Nat × String)) :
    (insertDesc p l).length = l.length + 1 := by
  induction l with
  | nil => rfl
  | cons q rest ih =>
    unfold insertDesc
    split_ifs <;> simp [ih]

lemma length_sortDesc (l : List (Nat × String)) : (sortDesc l).length = l.length := by
  induction l with
  | nil => rfl
  | cons p rest ih =>
    unfold sortDesc
    rw [length_insertDesc, ih]
    rfl

lemma sortDesc_eq_nil_iff (l : List (Nat × String)) : sortDesc l = [] ↔ l = [] := by
  constructor
  · intro h
    have hl := length_sortDesc l
    rw [h] at hl
    exact List.length_eq_zero.mp hl.symm
  · intro h
    rw [h]
    rfl

lemma topKeyPoints_eq_nil_iff (content : String) :
    topKeyPoints content = [] ↔ importantSentences content = [] := by
  unfold topKeyPoints
  rw [List.map_eq_nil_iff]
  constructor
  · intro h
    by_contra hne
    have hlen : 0 < (sortDesc (importantSentences content)).length := by
      rw [length_sortDesc]
      exact List.length_pos.mpr hne
    have h0 : ((sortDesc (importantSentences content)).take 5).length = 0 := by
      rw [h]
      rfl
    rw [List.length_take] at h0
    omega
  · intro h
    rw [(sortDesc_eq_nil_iff _).mpr h]
    rfl

lemma importantSentences_eq_nil_iff (content : String) :
    importantSentences content = [] ↔
      ∀ s ∈ reSplit content,
        ¬ (10 < (pyStrip s).length ∧ (0 < sentenceScore (pyStrip s)
          ∨ containsSub (pyStrip s) ("?") = true ∨ containsSub (pyStrip s) ("!") = true)) := by
  unfold importantSentences
  rw [List.filterMap_eq_nil_iff]
  apply forall_congr'
  intro s
  apply imp_congr_right
  intro _
  split_ifs <;> simp_all

lemma fallbackPoints_eq_nil_iff (content : String) :
    fallbackPoints content = [] ↔
      ∀ s ∈ (reSplit content).take 3, (pyStrip s).length ≤ 10 := by
  unfold fallbackPoints
  rw [List.filter_eq_nil_iff]
  constructor
  · intro h s hs
    have := h (pyStrip s) (List.mem_map_of_mem pyStrip hs)
    simpa using this
  · intro h a ha
    rcases List.mem_map.mp ha with ⟨s, hs, rfl⟩
    simpa using h s hs

/-- C7 as amended: at most five key points are ever produced, and the list
is empty exactly when no sentence longer than 10 characters (stripped)
carries an importance keyword or a `?`/`!`, and additionally none of the
first three sentences is longer than 10 characters (the fallback only looks
at the first three sentences, and the boundary is strict). -/
theorem claim_C7_amended (content : String) :
    (extractKeyPointsSmart content).length ≤ 5
    ∧ (extractKeyPointsSmart content = [] ↔
        ((∀ s ∈ reSplit content,
            ¬ (10 < (pyStrip s).length ∧ (0 < sentenceScore (pyStrip s)
              ∨ containsSub (pyStrip s) ("?") = true
              ∨ containsSub (pyStrip s) ("!") = true)))
          ∧ ∀ s ∈ (reSplit content).take 3, (pyStrip s).length ≤ 10)) := by
  constructor
  · unfold extractKeyPointsSmart
    split_ifs with h
    · calc (fallbackPoints content).length
          ≤ (((reSplit content).take 3).map pyStrip).length := List.length_filter_le _ _
        _ = ((reSplit content).take 3).length := List.length_map _ _
        _ ≤ 3 := List.length_take_le _ _
        _ ≤ 5 := by omega
    · unfold topKeyPoints
      calc (((sortDesc (importantSentences content)).take 5).map Prod.snd).length
          = ((sortDesc (importantSentences content)).take 5).length := List.length_map _ _
        _ ≤ 5 := List.length_take_le _ _
  · have hext : extractKeyPointsSmart content = [] ↔
        (topKeyPoints content = [] ∧ fallbackPoints content = []) := by
      unfold extractKeyPointsSmart
      split_ifs with h <;> simp [h]
    rw [hext, topKeyPoints_eq_nil_iff, importantSentences_eq_nil_iff,
      fallbackPoints_eq_nil_iff]

/-- Counterexample to C7 as stated: a single ten-character sentence (at
least 10 characters, as the claim demands) still yields an empty key-point
list, because the code requires strictly more than 10 characters. -/
theorem claim_C7_counterexample :
    extractKeyPointsSmart ("abcdefghij") = []
    ∧ reSplit ("abcdefghij") = ["abcdefghij"]
    ∧ 10 ≤ (pyStrip ("abcdefghij")).length := by decide

/-- Witness for C7: the bound instantiated at a concrete content. -/
theorem claim_C7_witness :
    (extractKeyPointsSmart ("We need help with an error. The budget is large. Call us.")).length ≤ 5 :=
  (claim_C7_amended ("We need help with an error. The budget is large. Call us.")).1

end AIWorkflow
